import Mathlib

/-!
Shallow embedding of the Dixmont tax-map ingestion pipeline (src/app.py).

The Python program is embedded as executable Lean definitions:

* Python `dict` objects become insertion-ordered association lists
  (`Dict α`) with update-in-place semantics (`dictSet`).
* The HTML tokenizer of `html.parser.HTMLParser` is an external
  collaborator: it is modelled as a parameter `tok : String → List HtmlEvent`
  turning a description string into the stream of
  starttag/endtag/data events delivered to the handler methods of
  `KMLDescriptionParser`; the handler methods themselves are embedded
  faithfully.
* Python `float(...)` is an external collaborator as well, modelled as a
  parameter `pf : String → Option F` (`none` models `ValueError`).
* A Placemark is modelled by the results of the XML queries that
  `parse_kml` performs on it (element presence and `.text` content,
  where `.text` is `Option String`, `none` meaning no text).
* Python exceptions that can escape a piece of code are modelled with
  `Except Unit`; `.error ()` is a raised exception.
-/

/-- Insertion-ordered string-keyed dictionary, modelling a Python dict. -/
abbrev Dict (α : Type) := List (String × α)

/-- Assignment `d[k] = v` on a Python dict: updates the existing entry in
place, or appends a new one. -/
def dictSet (d : Dict α) (k : String) (v : α) : Dict α :=
  if d.any (fun kv => kv.1 = k) then
    d.map (fun kv => if kv.1 = k then (k, v) else kv)
  else
    d ++ [(k, v)]

/-- Lookup `d.get(k)` on a Python dict: `none` when the key is absent. -/
def dictGet? (d : Dict α) (k : String) : Option α :=
  (d.find? (fun kv => kv.1 = k)).map (fun kv => kv.2)

/-- Membership test `k in d` on a Python dict. -/
def dictMem (d : Dict α) (k : String) : Bool :=
  d.any (fun kv => kv.1 = k)

/-- Characters stripped by Python `str.strip()` / split by `str.split()`
with no argument (the ASCII whitespace set). -/
def pyIsSpace (c : Char) : Bool :=
  c = ' ' || c = '\t' || c = '\n' || c = '\r' || c = '\x0b' || c = '\x0c'

/-- Python `str.strip()`: drop whitespace from both ends. -/
def pyStrip (s : String) : String :=
  ⟨((s.data.dropWhile pyIsSpace).reverse.dropWhile pyIsSpace).reverse⟩

/-- Accumulating worker for `pySplitCh`. -/
def splitChAux (c : Char) : List Char → List Char → List String
  | [], acc => [⟨acc.reverse⟩]
  | x :: xs, acc =>
    if x = c then ⟨acc.reverse⟩ :: splitChAux c xs []
    else splitChAux c xs (x :: acc)

/-- Python `str.split(sep)` for a one-character separator: keeps empty
segments and always yields at least one segment. -/
def pySplitCh (c : Char) (s : String) : List String :=
  splitChAux c s.data []

/-- Accumulating worker for `pySplitWs`. -/
def splitWsAux : List Char → List Char → List String
  | [], acc => if acc.isEmpty then [] else [⟨acc.reverse⟩]
  | x :: xs, acc =>
    if pyIsSpace x then
      if acc.isEmpty then splitWsAux xs []
      else ⟨acc.reverse⟩ :: splitWsAux xs []
    else splitWsAux xs (x :: acc)

/-- Python `str.split()` with no argument: split on whitespace runs,
discarding empty tokens. -/
def pySplitWs (s : String) : List String :=
  splitWsAux s.data []

/-- Decidable prefix test on lists. -/
def isPrefixList [DecidableEq α] : List α → List α → Bool
  | [], _ => true
  | _ :: _, [] => false
  | a :: as, b :: bs => a = b && isPrefixList as bs

/-- Substring occurrence test on character lists. -/
def containsSub (pat : List Char) : List Char → Bool
  | [] => pat.isEmpty
  | x :: rest => isPrefixList pat (x :: rest) || containsSub pat rest

/-- Python substring test `pat in s`. -/
def pyIn (pat s : String) : Bool :=
  containsSub pat.data s.data

/-- Python `str.endswith(suffix)`. -/
def pyEndsWith (s suffix : String) : Bool :=
  isPrefixList suffix.data.reverse s.data.reverse

/-- Truthiness of an optional text node: Python treats `None` and the
empty string as falsy.  Returns the usable string when truthy. -/
def truthyText : Option String → Option String
  | some s => if s = "" then none else some s
  | none => none

/-- Text of an optional XML element (`none` when the element is absent),
filtered through Python truthiness as the source always checks
`elem is not None and elem.text`. -/
def elemText (e : Option (Option String)) : Option String :=
  e.bind truthyText

/-- Events delivered by the `HTMLParser` tokenizer to the handler
methods of `KMLDescriptionParser`.  Attribute values are `Option String`
because the tokenizer reports a value-less attribute as `None`. -/
inductive HtmlEvent : Type
  | startTag (tag : String) (attrs : List (String × Option String))
  | endTag (tag : String)
  | dataText (s : String)

/-- Mutable state of `KMLDescriptionParser` (src/app.py:30-77). -/
structure PState where
  data : Dict String
  in_td : Bool
  td_count : Nat
  row_data : List String
  owner_from_header : Option String
  in_header_row : Bool
deriving Repr, DecidableEq

/-- State set up by `KMLDescriptionParser.__init__`. -/
def PState.init : PState :=
  { data := [], in_td := false, td_count := 0, row_data := [],
    owner_from_header := none, in_header_row := false }

/-- Evaluation of `dict(attrs).get('style', '')` followed by the two
substring tests: `dict(attrs)` keeps the last binding of a repeated
attribute, and testing `'x' in None` (value-less `style` attribute)
raises `TypeError`. -/
def styleOf (attrs : List (String × Option String)) : Except Unit String :=
  match (attrs.reverse.find? (fun kv => kv.1 = "style")).map (fun kv => kv.2) with
  | none => .ok ""
  | some (some s) => .ok s
  | some none => .error ()

/-- Handler `KMLDescriptionParser.handle_starttag` (src/app.py:44-57). -/
def handle_starttag (st : PState) (tag : String)
    (attrs : List (String × Option String)) : Except Unit PState :=
  if tag = "td" then
    .ok { st with in_td := true, td_count := st.td_count + 1 }
  else if tag = "tr" then
    match styleOf attrs with
    | .error e => .error e
    | .ok style =>
      .ok { st with
              row_data := []
              td_count := 0
              in_header_row :=
                pyIn "font-weight:bold" style || pyIn "text-align:center" style }
  else .ok st

/-- Handler `KMLDescriptionParser.handle_endtag` (src/app.py:59-71). -/
def handle_endtag (st : PState) (tag : String) : PState :=
  if tag = "td" then
    { st with in_td := false }
  else if tag = "tr" then
    let st' :=
      match st.row_data with
      | [k, v] =>
        if k ≠ "" ∧ v ≠ "" then
          { st with data := dictSet st.data (pyStrip k) (pyStrip v) }
        else st
      | [x] =>
        if st.in_header_row then
          { st with owner_from_header := some (pyStrip x) }
        else st
      | _ => st
    { st' with row_data := [] }
  else st

/-- Handler `KMLDescriptionParser.handle_data` (src/app.py:73-77). -/
def handle_data (st : PState) (s : String) : PState :=
  if st.in_td then
    let t := pyStrip s
    if t ≠ "" then { st with row_data := st.row_data ++ [t] } else st
  else st

/-- Dispatch of one tokenizer event to the matching handler. -/
def handleEvent (st : PState) : HtmlEvent → Except Unit PState
  | .startTag tag attrs => handle_starttag st tag attrs
  | .endTag tag => .ok (handle_endtag st tag)
  | .dataText s => .ok (handle_data st s)

/-- Feeding a whole event stream through the handlers; an exception
raised by a handler aborts the feed. -/
def feedEvents (st : PState) : List HtmlEvent → Except Unit PState
  | [] => .ok st
  | e :: es =>
    match handleEvent st e with
    | .error err => .error err
    | .ok st' => feedEvents st' es

/-- The alias table `key_mapping` of
`KMLDescriptionParser.get_properties` (src/app.py:84-115). -/
def key_mapping : Dict String :=
  [ ("Owner", "Owner"), ("owner", "Owner"), ("OWNER", "Owner"),
    ("MapBkLot", "MapLot"), ("TRMapBkLot", "MapLot"), ("Map_Lot", "MapLot"),
    ("MAP_LOT", "MapLot"),
    ("GISAcres", "Acres"), ("TRIOAcres", "Acres"), ("Acres", "Acres"),
    ("ACRES", "Acres"),
    ("LandValue", "LandValue"), ("Land_Value", "LandValue"),
    ("LAND_VALUE", "LandValue"),
    ("BldgValue", "BldgValue"), ("Bldg_Value", "BldgValue"),
    ("BLDG_VALUE", "BldgValue"),
    ("TotalValue", "TotalValue"), ("Total_Value", "TotalValue"),
    ("TOTAL_VALUE", "TotalValue"),
    ("Street", "Street"), ("STREET", "Street"),
    ("StNumber", "StNumber"), ("Account", "Account"), ("Town", "Town"),
    ("County", "County"), ("Year_Built", "YearBuilt"),
    ("BldgStyle", "BldgStyle"), ("NetAssess", "NetAssess"),
    ("Exemption", "Exemption") ]

/-- Key normalization `key_mapping.get(key, key)` (src/app.py:118). -/
def keyMapping (k : String) : String :=
  (dictGet? key_mapping k).getD k

/-- The key-normalizing loop of `KMLDescriptionParser.get_properties`
(src/app.py:117-119): `props[key_mapping.get(key, key)] = value` over
the extracted `self.data` in insertion order. -/
def normFold (init : Dict String) (d : Dict String) : Dict String :=
  d.foldl (fun acc kv => dictSet acc (keyMapping kv.1) kv.2) init

/-- Method `KMLDescriptionParser.get_properties` (src/app.py:79-125):
normalizes every key of `self.data`, then applies the owner-from-header
fallback only when no `Owner` key resulted. -/
def get_properties (st : PState) : Dict String :=
  let props := normFold [] st.data
  match st.owner_from_header with
  | some o =>
    if dictMem props "Owner" = false ∧ o ≠ "" then dictSet props "Owner" o
    else props
  | none => props

/-- Function `parse_html_description` (src/app.py:128-139): feeds the
description through the tokenizer `tok` and the handlers; any exception
is caught and an empty mapping returned. -/
def parse_html_description (tok : String → List HtmlEvent)
    (html_content : Option String) : Dict String :=
  match truthyText html_content with
  | none => []
  | some s =>
    match feedEvents PState.init (tok s) with
    | .ok st => get_properties st
    | .error _ => []

/-- One `<Data>` element of `<ExtendedData>`: its `name` attribute and
its `<value>` child (`none` when absent) with that child's text. -/
structure DataElem where
  name : Option String
  value : Option (Option String)
deriving Repr, DecidableEq

/-- One `<SimpleData>` element: its `name` attribute and its text. -/
structure SimpleDataElem where
  name : Option String
  text : Option String
deriving Repr, DecidableEq

/-- The `<ExtendedData>` element of a Placemark: its direct `<Data>`
children in document order and its `<SimpleData>` descendants. -/
structure ExtData where
  dataElems : List DataElem
  simpleData : List SimpleDataElem
deriving Repr, DecidableEq

/-- A geometry-bearing element (Polygon / Point / LineString): the first
`<coordinates>` element found under it (`none` when there is none) and
that element's text. -/
structure GeomElem where
  coords : Option (Option String)
deriving Repr, DecidableEq

/-- A Placemark, modelled by the results of the XML queries `parse_kml`
performs on it: each field is the first matching element found by the
corresponding `find`/`findall` call (`none` when the query finds
nothing).  The geometry fields correspond to `.//kml:Polygon`,
`.//kml:Point`, `.//kml:LineString` and `.//kml:MultiGeometry`; the
`multiGeometry` field lists the nested `.//kml:Polygon` elements of the
MultiGeometry in document order. -/
structure Placemark where
  name : Option (Option String)
  description : Option (Option String)
  extendedData : Option ExtData
  polygon : Option GeomElem
  point : Option GeomElem
  lineString : Option GeomElem
  multiGeometry : Option (List GeomElem)
deriving Repr, DecidableEq

/-- GeoJSON geometry values built by `parse_kml`, over an abstract
float type `F`. -/
inductive Geometry (F : Type) : Type
  | point (lon lat : F)
  | polygon (rings : List (List (F × F)))
  | lineString (coords : List (F × F))
  | multiPolygon (polys : List (List (List (F × F))))
deriving Repr, DecidableEq

/-- A GeoJSON feature: a properties dict whose values are Python
strings-or-None (`Option String`), and an optional geometry. -/
structure Feature (F : Type) where
  properties : Dict (Option String)
  geometry : Option (Geometry F)
deriving Repr, DecidableEq

/-- Function `parse_coordinates` (src/app.py:284-296): whitespace-split
the string, split each token on commas, keep tokens with at least two
fields whose first two fields both parse as floats. -/
def parse_coordinates (pf : String → Option F) (coord_string : String) :
    List (F × F) :=
  (pySplitWs (pyStrip coord_string)).filterMap
    (fun coord =>
      match pySplitCh ',' coord with
      | p0 :: p1 :: _ =>
        match pf p0, pf p1 with
        | some lon, some lat => some (lon, lat)
        | _, _ => none
      | _ => none)

/-- Property construction of `parse_kml` for one Placemark
(src/app.py:164-203): name element, HTML description table,
ExtendedData `Data`/`value` pairs and `SimpleData` entries, and the
MapLot-to-name copy.  Note that the ExtendedData scan runs whenever an
`<ExtendedData>` element exists, whether or not an HTML description was
parsed. -/
def buildProps (tok : String → List HtmlEvent) (p : Placemark) :
    Dict (Option String) :=
  let props : Dict (Option String) := []
  let props :=
    match elemText p.name with
    | some s => dictSet (dictSet props "name" (some s)) "MapLot" (some s)
    | none => props
  let props :=
    match elemText p.description with
    | some s =>
      (parse_html_description tok (some s)).foldl
        (fun acc kv => dictSet acc kv.1 (some kv.2)) props
    | none => props
  let props :=
    match p.extendedData with
    | some ed =>
      let props := ed.dataElems.foldl
        (fun acc d =>
          match truthyText d.name, d.value with
          | some k, some v => dictSet acc k v
          | _, _ => acc) props
      ed.simpleData.foldl
        (fun acc sd =>
          match truthyText sd.name, truthyText sd.text with
          | some k, some t => dictSet acc k (some t)
          | _, _ => acc) props
    | none => props
  let nameTruthy : Bool :=
    match dictGet? props "name" with
    | some (some s) => s != ""
    | _ => false
  let mapLotVal :=
    match dictGet? props "MapLot" with
    | some (some s) => if s ≠ "" then some s else none
    | _ => none
  match nameTruthy, mapLotVal with
  | false, some s => dictSet props "name" (some s)
  | _, _ => props

/-- Geometry result of the unconditional Polygon check
(src/app.py:205-214): `some` when the check assigns a geometry. -/
def polyRes (pf : String → Option F) (p : Placemark) : Option (Geometry F) :=
  (p.polygon.bind (fun pe => elemText pe.coords)).map
    (fun s => Geometry.polygon [parse_coordinates pf s])

/-- Result of the Point coordinate computation (src/app.py:221-225):
`float(coords[0])`/`float(coords[1])` raise `ValueError` on a malformed
field and indexing raises `IndexError` when the comma-split has fewer
than two fields; both are modelled as `.error ()`. -/
def parsePointText (pf : String → Option F) (s : String) :
    Except Unit (Geometry F) :=
  match pySplitCh ',' (pyStrip s) with
  | s0 :: s1 :: _ =>
    match pf s0, pf s1 with
    | some lon, some lat => .ok (Geometry.point lon lat)
    | _, _ => .error ()
  | _ => .error ()

/-- Outcome of the unconditional Point check (src/app.py:217-225):
`none` when the check does not run its body (no Point element or no
truthy coordinates text), otherwise the possibly-raising parse. -/
def pointRes (pf : String → Option F) (p : Placemark) :
    Option (Except Unit (Geometry F)) :=
  (p.point.bind (fun pe => elemText pe.coords)).map (parsePointText pf)

/-- Geometry result of the unconditional LineString check
(src/app.py:228-236). -/
def lineRes (pf : String → Option F) (p : Placemark) : Option (Geometry F) :=
  (p.lineString.bind (fun pe => elemText pe.coords)).map
    (fun s => Geometry.lineString (parse_coordinates pf s))

/-- Outer rings collected from the nested Polygons of a MultiGeometry
(src/app.py:241-249): one ring per nested Polygon that has truthy
coordinates text. -/
def collectRings (pf : String → Option F) (polys : List GeomElem) :
    List (List (F × F)) :=
  polys.filterMap (fun pe => (elemText pe.coords).map (parse_coordinates pf))

/-- Geometry result of the unconditional MultiGeometry check
(src/app.py:239-257): a single collected ring collapses to a Polygon,
several give a MultiPolygon, none leaves the geometry unassigned. -/
def multiRes (pf : String → Option F) (p : Placemark) : Option (Geometry F) :=
  match p.multiGeometry with
  | none => none
  | some polys =>
    match collectRings pf polys with
    | [] => none
    | [r] => some (Geometry.polygon [r])
    | rs => some (Geometry.multiPolygon (rs.map (fun r => [r])))

/-- Overwrite-if-assigned: a check that assigned a geometry replaces the
current one, a check that assigned nothing leaves it. -/
def upd (old new : Option (Geometry F)) : Option (Geometry F) :=
  match new with
  | some g => some g
  | none => old

/-- The Point check as a state step: it can raise, which aborts the
whole Placemark loop of `parse_kml`. -/
def pointStep (pf : String → Option F) (p : Placemark)
    (g : Option (Geometry F)) : Except Unit (Option (Geometry F)) :=
  match pointRes pf p with
  | none => .ok g
  | some (.error e) => .error e
  | some (.ok gp) => .ok (some gp)

/-- The four geometry checks of `parse_kml` (src/app.py:205-257), run
unconditionally in source order on one Placemark. -/
def extractGeometry (pf : String → Option F) (p : Placemark) :
    Except Unit (Option (Geometry F)) :=
  let g1 := upd none (polyRes pf p)
  match pointStep pf p g1 with
  | .error e => .error e
  | .ok g2 => .ok (upd (upd g2 (lineRes pf p)) (multiRes pf p))

/-- Construction of one Feature from one Placemark (src/app.py:164-257):
properties then geometry. -/
def buildFeature (tok : String → List HtmlEvent) (pf : String → Option F)
    (p : Placemark) : Except Unit (Feature F) :=
  match extractGeometry pf p with
  | .error e => .error e
  | .ok g => .ok { properties := buildProps tok p, geometry := g }

/-- Evaluation of `props.get(k, '').strip()` (src/app.py:263-264): the
default applies when the key is absent, and `.strip()` on a stored
`None` value raises `AttributeError`. -/
def pyGetStrip (d : Dict (Option String)) (k : String) : Except Unit String :=
  match dictGet? d k with
  | none => .ok ""
  | some (some s) => .ok (pyStrip s)
  | some none => .error ()

/-- The filtering step of `parse_kml` (src/app.py:259-276): `.ok none`
means the Feature is dropped, `.ok (some f)` means it is appended. -/
def filterStep (f : Feature F) : Except Unit (Option (Feature F)) :=
  match f.geometry with
  | none => .ok none
  | some _ =>
    match pyGetStrip f.properties "name" with
    | .error e => .error e
    | .ok nm =>
      match pyGetStrip f.properties "Owner" with
      | .error e => .error e
      | .ok ow =>
        if nm = "" ∧ ow = "" then .ok none
        else if nm ∈ ["", " ", "UNK", "ROW"] then .ok none
        else .ok (some f)

/-- Processing of one Placemark inside the loop of `parse_kml`: build
the Feature, then filter it. -/
def processPlacemark (tok : String → List HtmlEvent)
    (pf : String → Option F) (p : Placemark) :
    Except Unit (Option (Feature F)) :=
  match buildFeature tok pf p with
  | .error e => .error e
  | .ok f => filterStep f

/-- The Placemark loop of `parse_kml`: an exception raised while
processing any Placemark propagates, discarding the whole entry's
output. -/
def parsePlacemarks (tok : String → List HtmlEvent)
    (pf : String → Option F) : List Placemark → Except Unit (List (Feature F))
  | [] => .ok []
  | p :: rest =>
    match processPlacemark tok pf p with
    | .error e => .error e
    | .ok r =>
      match parsePlacemarks tok pf rest with
      | .error e => .error e
      | .ok fs => .ok (r.toList ++ fs)

/-- Function `parse_kml` (src/app.py:149-281) on one KML entry: `none`
models XML that `ET.fromstring` rejects (`ET.ParseError` is caught and
an empty list returned); exceptions raised inside the Placemark loop
are not caught here and propagate to the caller. -/
def parse_kml (tok : String → List HtmlEvent) (pf : String → Option F) :
    Option (List Placemark) → Except Unit (List (Feature F))
  | none => .ok []
  | some ps => parsePlacemarks tok pf ps

/-- Entry loop of `parse_kmz`/`parse_kmz_bytes` (src/app.py:299-338)
over the archive's `.kml` entries: an exception from `parse_kml` is
caught by the surrounding `except` and the features accumulated from
earlier entries are returned. -/
def kmzGo (tok : String → List HtmlEvent) (pf : String → Option F) :
    List (String × Option (List Placemark)) → List (Feature F) →
    List (Feature F)
  | [], acc => acc
  | (nm, e) :: rest, acc =>
    if pyEndsWith nm ".kml" then
      match parse_kml tok pf e with
      | .ok fs => kmzGo tok pf rest (acc ++ fs)
      | .error _ => acc
    else kmzGo tok pf rest acc

/-- Function `parse_kmz` (src/app.py:299-317): `none` models bytes that
are not a valid zip (`BadZipFile`, caught, empty result); otherwise the
archive's entries are given as (name, parsed-XML) pairs in directory
order. -/
def parse_kmz (tok : String → List HtmlEvent) (pf : String → Option F) :
    Option (List (String × Option (List Placemark))) → List (Feature F)
  | none => []
  | some entries => kmzGo tok pf entries []

/-- The process-wide provenance record `data_source_info`
(src/app.py:22-27). -/
structure DSI where
  source : String
  loaded_at : Option String
  parcel_count : Nat
  error : Option String
deriving Repr, DecidableEq

/-- Initial provenance at process start (src/app.py:22-27). -/
def DSI.start : DSI :=
  { source := "unknown", loaded_at := none, parcel_count := 0, error := none }

/-- A FeatureCollection over an abstract feature type. -/
structure Fc (α : Type) where
  features : List α
deriving Repr, DecidableEq

/-- Outcome of `requests.get` on the remote URL, as seen by
`fetch_remote_kmz`: a timeout, a transport or HTTP-status error
(everything `raise_for_status` and `requests` can raise, carrying the
exception's message), or a delivered body given by its byte length and
the feature list that `parse_kmz_bytes` extracts from it. -/
inductive FetchResult (α : Type) : Type
  | timeout
  | reqError (msg : String)
  | success (size : Nat) (parsed : List α)
deriving Repr, DecidableEq

/-- One entry of the data directory listing, as used by the local
fallback of `load_geojson_data`: its file name and the feature list
`parse_kmz` extracts from it (`parse_kmz` never raises). -/
structure LocalFile (α : Type) where
  name : String
  parsed : List α
deriving Repr, DecidableEq

/-- The external world for one resolver call: the clock, the cache
file (`none`: absent; `some none`: present but `json.load` raises on
it; `some (some fc)`: present and parsed), the remote fetch outcome and
the data directory listing. -/
structure Env (α : Type) where
  now : String
  cache : Option (Option (Fc α))
  fetch : FetchResult α
  localFiles : List (LocalFile α)
deriving Repr, DecidableEq

/-- Function `fetch_remote_kmz` (src/app.py:341-379): the returned
feature list (`none` on any failure) paired with the updated
provenance.  All failures are caught inside and recorded in
`data_source_info['error']`. -/
def fetch_remote_kmz (fr : FetchResult α) (now : String) (dsi : DSI) :
    Option (List α) × DSI :=
  match fr with
  | .timeout => (none, { dsi with error := some "Remote KMZ fetch timed out" })
  | .reqError msg =>
    (none, { dsi with error := some ("Remote KMZ fetch failed: " ++ msg) })
  | .success size parsed =>
    if size < 10000 then
      (none, { dsi with error := some ("Remote KMZ processing error: Remote file too small (" ++ toString size ++ " bytes)") })
    else if parsed.isEmpty then
      (none, { dsi with error := some "Remote KMZ processing error: No features parsed from remote KMZ" })
    else
      (some parsed,
        { source := "remote"
          loaded_at := some now
          parcel_count := parsed.length
          error := none })

/-- Steps 4-5 of `load_geojson_data` (src/app.py:437-449): the stale
cache as last resort, else the empty collection.  The source is set to
`cached` before the cache file is read, so a failing `json.load` leaves
that mutation behind (the raised state is carried by `.error`). -/
def cacheFallback (env : Env α) (dsi : DSI) : Except DSI (Fc α × DSI) :=
  match env.cache with
  | some c =>
    let dsi' := { dsi with source := "cached" }
    match c with
    | some fc => .ok (fc, { dsi' with parcel_count := fc.features.length })
    | none => .error dsi'
  | none =>
    .ok (⟨[]⟩, { dsi with
                  source := "none"
                  error := some "No data source available" })

/-- The local-KMZ fallback loop of `load_geojson_data`
(src/app.py:414-435): the first directory entry named `*.kmz` whose
parse yields at least one feature wins; note that `error` is not
cleared on this path.  When no entry qualifies, fall through to the
cache fallback. -/
def localScan (env : Env α) (dsi : DSI) :
    List (LocalFile α) → Except DSI (Fc α × DSI)
  | [] => cacheFallback env dsi
  | f :: rest =>
    if pyEndsWith f.name ".kmz" ∧ ¬ f.parsed.isEmpty then
      .ok (⟨f.parsed⟩,
        { dsi with
            source := "local"
            loaded_at := some env.now
            parcel_count := f.parsed.length })
    else localScan env dsi rest

/-- Steps 2-5 of `load_geojson_data` (src/app.py:396-449): remote fetch
first, then local archive, then cache, then empty. -/
def loadSlow (env : Env α) (dsi : DSI) : Except DSI (Fc α × DSI) :=
  match fetch_remote_kmz env.fetch env.now dsi with
  | (some features, dsi1) =>
    if ¬ features.isEmpty then .ok (⟨features⟩, dsi1)
    else localScan env dsi1 env.localFiles
  | (none, dsi1) => localScan env dsi1 env.localFiles

/-- Function `load_geojson_data` (src/app.py:382-449): the fast path
returns the cache file when it exists and the provenance source is
already decided; otherwise the fallback chain runs.  A `json.load`
failure on a cache read raises past the function (`.error`, carrying
the provenance state at the raise). -/
def load_geojson_data (env : Env α) (dsi : DSI) : Except DSI (Fc α × DSI) :=
  match env.cache with
  | some c =>
    if dsi.source ≠ "unknown" then
      match c with
      | some fc => .ok (fc, dsi)
      | none => .error dsi
    else loadSlow env dsi
  | none => loadSlow env dsi

/-- Route handler `refresh_data` (src/app.py:585-608): reset the
provenance source to `unknown`, delete the cache file (ignoring
deletion errors; the given `env` already reflects the cache state after
the attempted deletion), and re-run the resolution. -/
def refresh_data (env : Env α) (dsi : DSI) : Except DSI (Fc α × DSI) :=
  load_geojson_data env { dsi with source := "unknown" }

/-- Concrete instantiation of the float-parsing collaborator used for
closed evaluations: a parser for single decimal digits. -/
def demoFloat (s : String) : Option Nat :=
  if s = "0" then some 0 else if s = "1" then some 1
  else if s = "2" then some 2 else none

/-- Concrete instantiation of the HTML-tokenizer collaborator used for
closed evaluations: every description tokenizes to one two-cell table
row `Owner: A`. -/
def demoTok : String → List HtmlEvent := fun _ =>
  [ .startTag "tr" [], .startTag "td" [], .dataText "Owner", .endTag "td",
    .startTag "td" [], .dataText "A", .endTag "td", .endTag "tr" ]

/-- C1: a built Feature is appended by `parse_kml` if and only if its
geometry is present, its trimmed `name` and `Owner` properties are not
both empty, and its trimmed `name` is none of the sentinel strings
`""`, `" "`, `"UNK"`, `"ROW"`. -/
theorem C1_filter_iff {F : Type} (tok : String → List HtmlEvent)
    (pf : String → Option F) (p : Placemark) (f : Feature F)
    (hb : buildFeature tok pf p = Except.ok f) (nm ow : String)
    (hn : pyGetStrip f.properties "name" = .ok nm)
    (ho : pyGetStrip f.properties "Owner" = .ok ow) :
    processPlacemark tok pf p = .ok (some f) ↔
      (f.geometry.isSome = true ∧ ¬(nm = "" ∧ ow = "") ∧
        nm ∉ (["", " ", "UNK", "ROW"] : List String)) := by
  have hpf : processPlacemark tok pf p = filterStep f := by
    unfold processPlacemark
    rw [hb]
  rw [hpf]
  unfold filterStep
  cases hg : f.geometry with
  | none => simp [hg]
  | some g =>
    rw [hn, ho]
    by_cases h1 : nm = "" ∧ ow = ""
    · simp [h1]
    · by_cases h2 : nm ∈ (["", " ", "UNK", "ROW"] : List String)
      · simp [h1, h2]
      · simp [h1, h2]

/-- Concrete Placemark with a Polygon and name `12-34`, for the C1
witness. -/
def c1pm : Placemark :=
  { name := some (some "12-34"), description := none,
    extendedData := none, polygon := some ⟨some (some "0,0 1,1")⟩,
    point := none, lineString := none, multiGeometry := none }

/-- Feature built from `c1pm`, for the C1 witness. -/
def c1f : Feature Nat :=
  { properties := [("name", some "12-34"), ("MapLot", some "12-34")],
    geometry := some (Geometry.polygon [[(0, 0), (1, 1)]]) }

/-- Witness for C1 at a concrete Placemark with a Polygon and name
`12-34`: the Feature passes the filter and is appended. -/
theorem C1_filter_iff_witness :
    processPlacemark demoTok demoFloat c1pm = Except.ok (some c1f) :=
  (C1_filter_iff demoTok demoFloat c1pm c1f (by rfl) "12-34" "" (by rfl)
      (by rfl)).mpr ⟨by rfl, by decide, by decide⟩

/-- C5: the four geometry checks of `parse_kml` run unconditionally in
source order and the last check that assigns a geometry wins; a
MultiGeometry collapses to a plain Polygon when exactly one nested
Polygon contributes a ring, becomes a MultiPolygon for more than one,
and assigns nothing (leaving any earlier geometry unchanged) for zero.
The hypothesis rules out the Point check raising, which would abort the
Placemark instead. -/
theorem C5_geometry_last_wins {F : Type} (pf : String → Option F)
    (p : Placemark)
    (h : pointRes pf p = none ∨ ∃ g, pointRes pf p = some (.ok g)) :
    extractGeometry pf p = .ok
      (match multiRes pf p with
       | some g => some g
       | none =>
         match lineRes pf p with
         | some g => some g
         | none =>
           match pointRes pf p with
           | some (.ok g) => some g
           | _ => polyRes pf p) ∧
    (∀ polys, p.multiGeometry = some polys →
      (collectRings pf polys = [] → multiRes pf p = none) ∧
      (∀ r, collectRings pf polys = [r] →
        multiRes pf p = some (Geometry.polygon [r])) ∧
      (∀ r1 r2 rs, collectRings pf polys = r1 :: r2 :: rs →
        multiRes pf p = some (Geometry.multiPolygon
          ((r1 :: r2 :: rs).map (fun r => [r]))))) := by
  constructor
  · rcases h with hpt | ⟨g, hpt⟩ <;>
      unfold extractGeometry pointStep <;> rw [hpt] <;>
      cases hm : multiRes pf p <;> cases hl : lineRes pf p <;>
      cases hpo : polyRes pf p <;> simp [upd, hm, hl, hpo]
  · intro polys hmg
    refine ⟨?_, ?_, ?_⟩
    · intro hc
      simp only [multiRes, hmg, hc]
    · intro r hc
      simp only [multiRes, hmg, hc]
    · intro r1 r2 rs hc
      simp only [multiRes, hmg, hc]

/-- Concrete Placemark with both a Polygon and a two-Polygon
MultiGeometry, for the C5 witness. -/
def c5pm : Placemark :=
  { name := none, description := none, extendedData := none,
    polygon := some ⟨some (some "0,0 1,1")⟩, point := none,
    lineString := none,
    multiGeometry :=
      some [⟨some (some "0,0 1,0 1,1")⟩, ⟨some (some "2,2 0,1")⟩] }

/-- Witness for C5: on `c5pm` the MultiGeometry check runs last and
overwrites the Polygon check's geometry with a MultiPolygon. -/
theorem C5_geometry_last_wins_witness :
    extractGeometry demoFloat c5pm =
      .ok (some (Geometry.multiPolygon
        [[[(0, 0), (1, 0), (1, 1)]], [[(2, 2), (0, 1)]]])) := by
  have h := C5_geometry_last_wins demoFloat c5pm (Or.inl (by rfl))
  rw [h.1]
  rfl

/-- Placemark whose Point has malformed coordinates text (no comma, so
even the list indexing `coords[1]` raises, independently of the float
parser), for C3. -/
def c3bad : Placemark :=
  { name := some (some "P1"), description := none, extendedData := none,
    polygon := none, point := some ⟨some (some "abc")⟩,
    lineString := none, multiGeometry := none }

/-- Well-formed Placemark following the malformed one in the same KML
entry, for C3. -/
def c3good : Placemark :=
  { name := some (some "P2"), description := none, extendedData := none,
    polygon := some ⟨some (some "0,0 1,1")⟩, point := none,
    lineString := none, multiGeometry := none }

/-- C3 counterexample: a malformed Point coordinate is NOT confined to
its feature.  The exception escapes `parse_kml`, the following
Placemark of the same entry (which on its own parses fine, last
conjunct) is never processed, and `parse_kmz` ends up returning no
features at all for the entry. -/
theorem C3_point_crash_counterexample :
    processPlacemark demoTok demoFloat c3bad = .error () ∧
    parse_kml demoTok demoFloat (some [c3bad, c3good]) = .error () ∧
    parse_kmz demoTok demoFloat (some [("doc.kml", some [c3bad, c3good])]) =
      [] ∧
    processPlacemark demoTok demoFloat c3good =
      .ok (some
        { properties := [("name", some "P2"), ("MapLot", some "P2")],
          geometry := some (Geometry.polygon [[(0, 0), (1, 1)]]) }) := by
  exact ⟨by rfl, by rfl, by rfl, by rfl⟩

/-- Helper for C3: a Placemark loop whose prefix succeeds and then hits
a raising Placemark propagates the exception. -/
theorem parsePlacemarks_append_error {F : Type}
    (tok : String → List HtmlEvent) (pf : String → Option F)
    (pre : List Placemark) (p : Placemark) (post : List Placemark)
    (fs : List (Feature F)) (hpre : parsePlacemarks tok pf pre = .ok fs)
    (hp : processPlacemark tok pf p = .error ()) :
    parsePlacemarks tok pf (pre ++ p :: post) = .error () := by
  induction pre generalizing fs with
  | nil =>
    simp only [List.nil_append, parsePlacemarks]
    rw [hp]
  | cons q rest ih =>
    simp only [parsePlacemarks] at hpre
    rw [List.cons_append]
    simp only [parsePlacemarks]
    cases hq : processPlacemark tok pf q with
    | error e => rfl
    | ok r =>
      rw [hq] at hpre
      cases hr : parsePlacemarks tok pf rest with
      | error e =>
        rw [hr] at hpre
        have hpre' : (Except.error e : Except Unit (List (Feature F))) =
            Except.ok fs := hpre
        exact absurd hpre' (by simp)
      | ok fs' => rw [ih fs' hr]

/-- C3 amended: a malformed Point coordinate text (fewer than two
comma-separated fields, or a field the float parser rejects) raises
out of the whole Placemark loop: the feature is not merely left without
geometry — `parse_kml` propagates the exception for the entry (any
features already built in that entry are discarded and the remaining
Placemarks are not processed), and the archive loop of `parse_kmz`
catches it, keeping only features accumulated from earlier entries. -/
theorem C3_point_crash_amended {F : Type}
    (tok : String → List HtmlEvent) (pf : String → Option F)
    (p : Placemark) (s : String)
    (hpt : p.point.bind (fun pe => elemText pe.coords) = some s)
    (hbad : parsePointText pf s = .error ())
    (pre post : List Placemark) (fs : List (Feature F))
    (hpre : parsePlacemarks tok pf pre = .ok fs)
    (nm : String) (hk : pyEndsWith nm ".kml" = true)
    (rest : List (String × Option (List Placemark)))
    (acc : List (Feature F)) :
    processPlacemark tok pf p = .error () ∧
    parse_kml tok pf (some (pre ++ p :: post)) = .error () ∧
    kmzGo tok pf ((nm, some (pre ++ p :: post)) :: rest) acc = acc := by
  have hperr : processPlacemark tok pf p = .error () := by
    have hptr : pointRes pf p = some (.error ()) := by
      unfold pointRes
      rw [hpt]
      exact congrArg some hbad
    unfold processPlacemark buildFeature extractGeometry pointStep
    rw [hptr]
  have hkml : parse_kml tok pf (some (pre ++ p :: post)) = .error () := by
    unfold parse_kml
    exact parsePlacemarks_append_error tok pf pre p post fs hpre hperr
  refine ⟨hperr, hkml, ?_⟩
  unfold kmzGo
  rw [if_pos hk, hkml]

/-- Witness for the amended C3 at the concrete malformed entry. -/
theorem C3_point_crash_amended_witness :
    processPlacemark demoTok demoFloat c3bad = .error () ∧
    parse_kml demoTok demoFloat (some ([] ++ c3bad :: [c3good])) =
      .error () ∧
    kmzGo demoTok demoFloat
      [("doc.kml", some ([] ++ c3bad :: [c3good]))] [] = [] :=
  C3_point_crash_amended demoTok demoFloat c3bad "abc" (by rfl) (by rfl)
    [] [c3good] [] (by rfl) "doc.kml" (by rfl) [] []

/-- Placemark with both a non-empty HTML description (tokenizing to the
table row `Owner: A`) and an ExtendedData `Data` element `Owner: B`,
for C4. -/
def c4pm : Placemark :=
  { name := some (some "N"), description := some (some "D"),
    extendedData := some ⟨[⟨some "Owner", some (some "B")⟩], []⟩,
    polygon := some ⟨some (some "0,0")⟩, point := none,
    lineString := none, multiGeometry := none }

/-- C4: the ExtendedData scan is NOT a fallback.  On `c4pm` the HTML
description alone yields `Owner = A` (first conjunct), yet the built
feature carries `Owner = B`: the `Data`/`value` scan ran despite the
non-empty description and overwrote the description-derived value
(contradicting the comment at src/app.py:186). -/
theorem C4_extended_data_not_fallback :
    parse_html_description demoTok (some "D") = [("Owner", "A")] ∧
    buildFeature demoTok demoFloat c4pm =
      .ok { properties :=
              [("name", some "N"), ("MapLot", some "N"), ("Owner", some "B")]
            geometry := some (Geometry.polygon [[(0, 0)]]) } :=
  ⟨by rfl, by rfl⟩

/-- Placemark with an ExtendedData `Data` element named `X` whose
`<value>` child has no text, for C10. -/
def c10pm : Placemark :=
  { name := some (some "A"), description := none,
    extendedData := some ⟨[⟨some "X", some none⟩], []⟩,
    polygon := some ⟨some (some "0,0 1,1 2,2")⟩, point := none,
    lineString := none, multiGeometry := none }

/-- Feature built and kept from `c10pm`, for C10. -/
def c10f : Feature Nat :=
  { properties := [("name", some "A"), ("MapLot", some "A"), ("X", none)],
    geometry := some (Geometry.polygon [[(0, 0), (1, 1), (2, 2)]]) }

/-- C10: a Feature that survives the pipeline can carry a non-string
property value.  On `c10pm` the `Data`/`value` scan stores Python
`None` (the `<value>` element's missing text) under key `X` without the
truthiness check the neighbouring SimpleData branch performs, and the
feature passes the filter. -/
theorem C10_none_property_value :
    processPlacemark demoTok demoFloat c10pm = .ok (some c10f) ∧
    dictGet? c10f.properties "X" = some none :=
  ⟨by rfl, by rfl⟩

/-- Updating an entry whose key differs from the looked-up key does not
change the lookup. -/
theorem find?_map_of_ne {α : Type} (t : Dict α) (k k' : String) (v : α)
    (h : k' ≠ k) :
    List.find? (fun kv => kv.1 = k')
        (t.map (fun kv => if kv.1 = k then (k, v) else kv)) =
      List.find? (fun kv => kv.1 = k') t := by
  induction t with
  | nil => rfl
  | cons a t ih =>
    by_cases hak : a.1 = k
    · have hkk' : (k = k') = False := eq_false (fun hh => h hh.symm)
      simp [List.find?, hak, hkk', ih]
    · simp only [List.map_cons, if_neg hak]
      by_cases ha' : a.1 = k'
      · simp [List.find?, ha']
      · simp [List.find?, ha', ih]

/-- Updating an existing key makes it the found entry. -/
theorem find?_map_self {α : Type} (t : Dict α) (k : String) (v : α)
    (hmem : t.any (fun kv => kv.1 = k) = true) :
    List.find? (fun kv => kv.1 = k)
        (t.map (fun kv => if kv.1 = k then (k, v) else kv)) =
      some (k, v) := by
  induction t with
  | nil => simp at hmem
  | cons a t ih =>
    by_cases hak : a.1 = k
    · simp [List.find?, hak]
    · simp only [List.any_cons, Bool.or_eq_true, decide_eq_true_eq] at hmem
      rcases hmem with hmem | hmem
    
      · exact absurd hmem hak
      · simp [List.find?, hak, ih hmem]

/-- Lookup after a Python dict assignment: the assigned key reads back
the new value, other keys are unchanged. -/
theorem dictGet?_dictSet {α : Type} (d : Dict α) (k k' : String) (v : α) :
    dictGet? (dictSet d k v) k' = if k' = k then some v else dictGet? d k' := by
  unfold dictSet
  by_cases hmem : d.any (fun kv => kv.1 = k) = true
  · rw [if_pos hmem]
    by_cases hk' : k' = k
    · subst hk'
      unfold dictGet?
      rw [find?_map_self d k' v hmem]
      simp
    · unfold dictGet?
      rw [find?_map_of_ne d k k' v hk']
      simp [hk']
  · rw [if_neg hmem]
    unfold dictGet?
    rw [List.find?_append]
    by_cases hk' : k' = k
    · subst hk'
      have hnone : d.find? (fun kv => kv.1 = k') = none := by
        rw [List.find?_eq_none]
        intro x hx
        simp only [List.any_eq_true, decide_eq_true_eq] at hmem
        simp only [decide_eq_true_eq]
        exact fun hc => hmem ⟨x, hx, hc⟩
      rw [hnone]
      simp [List.find?]
    · have hone : List.find? (fun kv => kv.1 = k') [(k, v)] = none := by
        have hkk' : (k = k') = False := eq_false (fun hh => hk' hh.symm)
        simp [List.find?, hkk']
      rw [hone]
      simp [hk']

/-- Python `k in d` agrees with the lookup being defined. -/
theorem dictMem_eq_isSome {α : Type} (d : Dict α) (k : String) :
    dictMem d k = (dictGet? d k).isSome := by
  induction d with
  | nil => rfl
  | cons a t ih =>
    by_cases h : a.1 = k
    · simp [dictMem, dictGet?, List.any_cons, List.find?, h]
    · simp only [dictMem, dictGet?, List.any_cons, List.find?] at ih ⊢
      simp [h, ih]

/-- Lookup after the key-normalizing loop: the last entry of the
extracted table whose key normalizes to `k` wins; with no such entry
the initial dictionary's binding shows through. -/
theorem dictGet?_normFold (d : Dict String) (init : Dict String)
    (k : String) :
    dictGet? (normFold init d) k =
      match d.reverse.find? (fun kv => keyMapping kv.1 = k) with
      | some kv => some kv.2
      | none => dictGet? init k := by
  induction d generalizing init with
  | nil => simp [normFold]
  | cons a t ih =>
    have h1 : normFold init (a :: t) =
        normFold (dictSet init (keyMapping a.1) a.2) t := rfl
    rw [h1, ih]
    rw [List.reverse_cons, List.find?_append]
    cases hf : t.reverse.find? (fun kv => keyMapping kv.1 = k) with
    | some kv => simp
    | none =>
      simp only [Option.none_or]
      by_cases hpa : keyMapping a.1 = k
      · simp [List.find?, hpa, dictGet?_dictSet]
      · have hkk' : (k = keyMapping a.1) = False :=
          eq_false (fun hh => hpa hh.symm)
        simp [List.find?, hpa, dictGet?_dictSet, hkk']

/-- Event stream the tokenizer produces for one single-cell header row
`<tr style=...><td>s</td></tr>`. -/
def headerRowEvents (sty s : String) : List HtmlEvent :=
  [ .startTag "tr" [("style", some sty)], .startTag "td" [], .dataText s,
    .endTag "td", .endTag "tr" ]

/-- Feeding a successfully handled prefix followed by more events is
feeding the rest from the reached state. -/
theorem feedEvents_append (es es' : List HtmlEvent) (st0 st1 : PState)
    (h : feedEvents st0 es = .ok st1) :
    feedEvents st0 (es ++ es') = feedEvents st1 es' := by
  induction es generalizing st0 with
  | nil =>
    rw [List.nil_append]
    have h' : st0 = st1 := by
      simp only [feedEvents] at h
      exact Except.ok.inj h
    rw [h']
  | cons e es ih =>
    rw [List.cons_append]
    simp only [feedEvents] at h ⊢
    cases he : handleEvent st0 e with
    | error err =>
      rw [he] at h
      exact absurd
        (show (Except.error err : Except Unit PState) = .ok st1 from h)
        (by simp)
    | ok st' =>
      rw [he] at h
      exact ih st' h

/-- When the normalized table already binds `Owner`, `get_properties`
is just the normalizing fold: the header fallback does not fire. -/
theorem get_properties_of_owner_bound (st : PState)
    (hsome : (dictGet? (normFold [] st.data) "Owner").isSome = true) :
    get_properties st = normFold [] st.data := by
  unfold get_properties
  cases ho : st.owner_from_header with
  | none => rfl
  | some o => simp [dictMem_eq_isSome, hsome]

set_option maxHeartbeats 1600000 in
/-- C8: an explicitly keyed owner always wins over the header-row
fallback.  Conjuncts: (1) exactly the aliases `Owner`/`owner`/`OWNER`
normalize to `Owner`; (2) when the extracted table has such a key, the
output `Owner` is the last such entry's value and the output is
entirely independent of the captured header fallback; (3) the fallback
is used only when no key normalizes to `Owner`; (4) a later single-cell
header row overwrites the captured fallback, so the last one wins. -/
theorem C8_owner_priority (st : PState) :
    (∀ k : String, keyMapping k = "Owner" ↔
        k ∈ (["Owner", "owner", "OWNER"] : List String)) ∧
    (∀ k v, st.data.reverse.find? (fun kv => keyMapping kv.1 = "Owner") =
        some (k, v) →
      dictGet? (get_properties st) "Owner" = some v ∧
      ∀ o', get_properties { st with owner_from_header := o' } =
        get_properties st) ∧
    (∀ o, st.data.reverse.find? (fun kv => keyMapping kv.1 = "Owner") =
        none →
      st.owner_from_header = some o → o ≠ "" →
      dictGet? (get_properties st) "Owner" = some o) ∧
    (∀ (st0 : PState) (es : List HtmlEvent) (st1 : PState) (sty s : String),
      feedEvents st0 es = .ok st1 →
      (pyIn "font-weight:bold" sty || pyIn "text-align:center" sty) = true →
      pyStrip s = s → s ≠ "" →
      ∃ st2, feedEvents st0 (es ++ headerRowEvents sty s) = .ok st2 ∧
        st2.owner_from_header = some s) := by
  refine ⟨?_, ?_, ?_, ?_⟩
  · intro k
    constructor
    · intro h
      unfold keyMapping dictGet? at h
      cases hf : key_mapping.find? (fun kv => kv.1 = k) with
      | none =>
        rw [hf] at h
        simp only [Option.map_none', Option.getD_none] at h
        subst h
        exact absurd hf (by decide)
      | some a =>
        have hmem : a ∈ key_mapping := List.mem_of_find?_eq_some hf
        have hpa' := List.find?_some hf
        have hpa : a.1 = k := of_decide_eq_true hpa'
        rw [hf] at h
        simp only [Option.map_some', Option.getD_some] at h
        have ha : a = (k, "Owner") := by
          obtain ⟨a1, a2⟩ := a
          simp only [Prod.mk.injEq]
          exact ⟨hpa, h⟩
        rw [ha] at hmem
        have : (k, "Owner") ∈ key_mapping → k ∈ ["Owner", "owner", "OWNER"] := by
          intro hm
          simp only [key_mapping, List.mem_cons, List.not_mem_nil, or_false,
            Prod.mk.injEq] at hm
          rcases hm with ⟨rfl, _⟩ | ⟨rfl, _⟩ | ⟨rfl, _⟩ | ⟨rfl, hv⟩ | ⟨rfl, hv⟩ |
            ⟨rfl, hv⟩ | ⟨rfl, hv⟩ | ⟨rfl, hv⟩ | ⟨rfl, hv⟩ | ⟨rfl, hv⟩ |
            ⟨rfl, hv⟩ | ⟨rfl, hv⟩ | ⟨rfl, hv⟩ | ⟨rfl, hv⟩ | ⟨rfl, hv⟩ |
            ⟨rfl, hv⟩ | ⟨rfl, hv⟩ | ⟨rfl, hv⟩ | ⟨rfl, hv⟩ | ⟨rfl, hv⟩ |
            ⟨rfl, hv⟩ | ⟨rfl, hv⟩ | ⟨rfl, hv⟩ | ⟨rfl, hv⟩ | ⟨rfl, hv⟩ |
            ⟨rfl, hv⟩ | ⟨rfl, hv⟩ | ⟨rfl, hv⟩ | ⟨rfl, hv⟩ | ⟨rfl, hv⟩ <;>
            first
              | decide
              | exact absurd hv.symm (by decide)
        exact this hmem
    · intro hm
      simp only [List.mem_cons, List.not_mem_nil, or_false] at hm
      rcases hm with rfl | rfl | rfl <;> rfl
  · intro k v hf
    have hget : dictGet? (normFold [] st.data) "Owner" = some v := by
      rw [dictGet?_normFold, hf]
    have hsome : (dictGet? (normFold [] st.data) "Owner").isSome = true := by
      rw [hget]; rfl
    constructor
    · rw [get_properties_of_owner_bound st hsome, hget]
    · intro o'
      rw [get_properties_of_owner_bound st hsome]
      exact get_properties_of_owner_bound { st with owner_from_header := o' }
        hsome
  · intro o hf ho hne
    have hget : dictGet? (normFold [] st.data) "Owner" = none := by
      rw [dictGet?_normFold, hf]
      rfl
    simp only [get_properties, ho]
    rw [dictMem_eq_isSome, hget]
    rw [if_pos (show (none : Option String).isSome = false ∧ o ≠ "" from
      ⟨rfl, hne⟩)]
    rw [dictGet?_dictSet]
    simp
  · intro st0 es st1 sty s hfeed hsty hs hne
    rw [feedEvents_append es (headerRowEvents sty s) st0 st1 hfeed]
    refine ⟨{ st1 with
                row_data := []
                td_count := 1
                in_td := false
                in_header_row := true
                owner_from_header := some s }, ?_, rfl⟩
    simp only [headerRowEvents, feedEvents, handleEvent, handle_starttag,
      handle_endtag, handle_data, styleOf]
    simp [hsty, hs, hne]

/-- Parser state with aliased owner keys and a captured header
fallback, for the C8 witness. -/
def c8st : PState :=
  { data := [("owner", "A"), ("OWNER", "B"), ("GISAcres", "12.5")],
    in_td := false, td_count := 0, row_data := [],
    owner_from_header := some "HDR", in_header_row := false }

/-- Parser state with no owner-aliased key, for the C8 witness. -/
def c8stNoKey : PState :=
  { data := [("GISAcres", "12.5")], in_td := false, td_count := 0,
    row_data := [], owner_from_header := some "HDR",
    in_header_row := false }

/-- Witness for C8: the keyed `OWNER: B` beats the header fallback and
makes the output insensitive to it; without a keyed owner the fallback
`HDR` is used; a header row stores its cell text as the fallback. -/
theorem C8_owner_priority_witness :
    dictGet? (get_properties c8st) "Owner" = some "B" ∧
    get_properties { c8st with owner_from_header := some "ZZ" } =
      get_properties c8st ∧
    dictGet? (get_properties c8stNoKey) "Owner" = some "HDR" ∧
    (∃ st2, feedEvents PState.init
        ([] ++ headerRowEvents "text-align:center" "Jane") = .ok st2 ∧
      st2.owner_from_header = some "Jane") := by
  refine ⟨?_, ?_, ?_, ?_⟩
  · exact ((C8_owner_priority c8st).2.1 "OWNER" "B" (by rfl)).1
  · exact ((C8_owner_priority c8st).2.1 "OWNER" "B" (by rfl)).2 (some "ZZ")
  · exact (C8_owner_priority c8stNoKey).2.2.1 "HDR" (by rfl) (by rfl)
      (by decide)
  · exact (C8_owner_priority PState.init).2.2.2 PState.init [] PState.init
      "text-align:center" "Jane" (by rfl) (by decide) (by rfl) (by decide)

/-- A failed remote fetch only records an error message: source,
timestamp and count of the provenance are untouched. -/
theorem fetch_remote_kmz_fail {α : Type} (fr : FetchResult α) (now : String)
    (dsi : DSI) (hfail : (fetch_remote_kmz fr now dsi).1 = none) :
    (fetch_remote_kmz fr now dsi).2.source = dsi.source ∧
    (fetch_remote_kmz fr now dsi).2.loaded_at = dsi.loaded_at ∧
    (fetch_remote_kmz fr now dsi).2.parcel_count = dsi.parcel_count := by
  cases fr with
  | timeout => exact ⟨rfl, rfl, rfl⟩
  | reqError msg => exact ⟨rfl, rfl, rfl⟩
  | success size parsed =>
    simp only [fetch_remote_kmz] at hfail ⊢
    by_cases hs : size < 10000
    · rw [if_pos hs]
      exact ⟨rfl, rfl, rfl⟩
    · rw [if_neg hs] at hfail ⊢
      by_cases hp : parsed.isEmpty
      · rw [if_pos hp]
        exact ⟨rfl, rfl, rfl⟩
      · rw [if_neg hp] at hfail
        exact absurd hfail (by simp)

/-- The cache-or-empty last resort returns successfully whenever the
cache file, if present, parses. -/
theorem cacheFallback_ok {α : Type} (env : Env α) (dsi : DSI)
    (h : env.cache ≠ some none) :
    ∃ fc dsi', cacheFallback env dsi = .ok (fc, dsi') := by
  unfold cacheFallback
  cases hc : env.cache with
  | none => exact ⟨_, _, rfl⟩
  | some c =>
    cases c with
    | none => exact absurd hc h
    | some fc => exact ⟨_, _, rfl⟩

/-- The local-archive scan returns successfully whenever the cache
file, if present, parses. -/
theorem localScan_ok {α : Type} (env : Env α) (dsi : DSI)
    (files : List (LocalFile α)) (h : env.cache ≠ some none) :
    ∃ fc dsi', localScan env dsi files = .ok (fc, dsi') := by
  induction files with
  | nil => exact cacheFallback_ok env dsi h
  | cons f rest ih =>
    unfold localScan
    by_cases hf : pyEndsWith f.name ".kmz" = true ∧ ¬ f.parsed.isEmpty = true
    · rw [if_pos hf]
      exact ⟨_, _, rfl⟩
    · rw [if_neg hf]
      exact ih

/-- When every `.kmz` file in the data directory parses to no features,
the local scan falls through to the cache fallback. -/
theorem localScan_all_fail {α : Type} (env : Env α) (dsi : DSI)
    (files : List (LocalFile α))
    (hall : ∀ f ∈ files, pyEndsWith f.name ".kmz" = true → f.parsed = []) :
    localScan env dsi files = cacheFallback env dsi := by
  induction files with
  | nil => rfl
  | cons f rest ih =>
    unfold localScan
    rw [if_neg ?_]
    · exact ih (fun g hg => hall g (List.mem_cons_of_mem f hg))
    · rintro ⟨h1, h2⟩
      exact h2 (by rw [hall f (List.mem_cons_self f rest) h1]; rfl)

/-- When the fast path does not apply, resolution runs the fallback
chain. -/
theorem load_eq_slow {α : Type} (env : Env α) (dsi : DSI)
    (h : env.cache = none ∨ dsi.source = "unknown") :
    load_geojson_data env dsi = loadSlow env dsi := by
  rcases h with hc | hs
  · simp only [load_geojson_data, hc]
  · cases hc : env.cache with
    | none => simp only [load_geojson_data, hc]
    | some c =>
      simp only [load_geojson_data, hc]
      rw [if_neg (by rw [hs]; simp)]

/-- Environment whose cache file exists but does not parse, for the C2
counterexample. -/
def c2env : Env Nat :=
  { now := "T", cache := some none, fetch := .timeout, localFiles := [] }

/-- Provenance already resolved to `cached`, for the C2
counterexample. -/
def c2dsi : DSI :=
  { source := "cached", loaded_at := none, parcel_count := 0,
    error := none }

/-- C2 counterexample: with a cache file present whose contents
`json.load` rejects and provenance already decided, the fast path of
`load_geojson_data` raises past the resolver instead of returning a
FeatureCollection. -/
theorem C2_resolver_raises_counterexample :
    load_geojson_data c2env c2dsi = .error c2dsi := by rfl

/-- C2 amended: provided every cache read that happens parses as a
FeatureCollection document, the resolver always returns a
FeatureCollection and never raises; in particular when the remote
fetch fails, every local `.kmz` parses to no features and no cache file
exists, it returns the empty collection with provenance source `none`
and error `No data source available`. -/
theorem C2_no_error_amended {α : Type} (env : Env α) (dsi : DSI)
    (hcache : env.cache ≠ some none) :
    (∃ fc dsi', load_geojson_data env dsi = .ok (fc, dsi')) ∧
    (env.cache = none →
      (fetch_remote_kmz env.fetch env.now dsi).1 = none →
      (∀ f ∈ env.localFiles, pyEndsWith f.name ".kmz" = true →
        f.parsed = []) →
      load_geojson_data env dsi =
        .ok (⟨[]⟩, { source := "none", loaded_at := dsi.loaded_at,
                     parcel_count := dsi.parcel_count,
                     error := some "No data source available" })) := by
  constructor
  · have hslow : ∃ fc dsi', loadSlow env dsi = .ok (fc, dsi') := by
      unfold loadSlow
      split
      · rename_i features dsi1 hmatch
        by_cases hne : ¬ features.isEmpty = true
        · rw [if_pos hne]
          exact ⟨_, _, rfl⟩
        · rw [if_neg hne]
          exact localScan_ok env dsi1 env.localFiles hcache
      · rename_i dsi1 hmatch
        exact localScan_ok env dsi1 env.localFiles hcache
    cases hc : env.cache with
    | none =>
      rw [load_eq_slow env dsi (Or.inl hc)]
      exact hslow
    | some c =>
      cases c with
      | none => exact absurd hc hcache
      | some fc =>
        by_cases hs : dsi.source = "unknown"
        · rw [load_eq_slow env dsi (Or.inr hs)]
          exact hslow
        · simp only [load_geojson_data, hc]
          rw [if_pos hs]
          exact ⟨_, _, rfl⟩
  · intro hcnone hfail hall
    rw [load_eq_slow env dsi (Or.inl hcnone)]
    unfold loadSlow
    split
    · rename_i features dsi1 hmatch
      rw [hmatch] at hfail
      exact absurd hfail (by simp)
    · rename_i dsi1 hmatch
      obtain ⟨hsrc, hload, hcount⟩ := fetch_remote_kmz_fail env.fetch env.now
        dsi (by rw [hmatch])
      rw [hmatch] at hsrc hload hcount
      simp only at hsrc hload hcount
      rw [localScan_all_fail env dsi1 env.localFiles hall]
      simp only [cacheFallback, hcnone]
      cases dsi1 with
      | mk src la pc er =>
        simp only at hload hcount
        rw [hload, hcount]

/-- Environment with no cache, a timing-out fetch and an empty data
directory, for the C2 witness. -/
def c2envW : Env Nat :=
  { now := "T", cache := none, fetch := .timeout, localFiles := [] }

/-- Witness for the amended C2: with every source failing and no cache,
resolution returns the empty collection with source `none`. -/
theorem C2_no_error_amended_witness :
    load_geojson_data c2envW DSI.start =
      .ok (⟨([] : List Nat)⟩,
        { source := "none", loaded_at := none, parcel_count := 0,
          error := some "No data source available" }) :=
  (C2_no_error_amended c2envW DSI.start
      (fun h => Option.noConfusion h)).2 rfl rfl
    (fun f hf _ => absurd hf (List.not_mem_nil f))

/-- C6: a remote response smaller than 10,000 bytes is rejected: the
fetch returns no features and records a descriptive error in
provenance, and (when the fast path does not apply) resolution
proceeds to the local-archive scan. -/
theorem C6_small_body_rejected {α : Type} (env : Env α) (dsi : DSI)
    (size : Nat) (parsed : List α) (hf : env.fetch = .success size parsed)
    (hsize : size < 10000)
    (hslow : env.cache = none ∨ dsi.source = "unknown") :
    fetch_remote_kmz env.fetch env.now dsi =
      (none, { dsi with error := some ("Remote KMZ processing error: Remote file too small (" ++ toString size ++ " bytes)") }) ∧
    load_geojson_data env dsi =
      localScan env
        { dsi with error := some ("Remote KMZ processing error: Remote file too small (" ++ toString size ++ " bytes)") }
        env.localFiles := by
  have h1 : fetch_remote_kmz env.fetch env.now dsi =
      (none, { dsi with error := some ("Remote KMZ processing error: Remote file too small (" ++ toString size ++ " bytes)") }) := by
    rw [hf]
    simp only [fetch_remote_kmz]
    rw [if_pos hsize]
  refine ⟨h1, ?_⟩
  rw [load_eq_slow env dsi hslow]
  unfold loadSlow
  rw [h1]

/-- Environment delivering a 9,999-byte remote body, for the C6
witness. -/
def c6env : Env Nat :=
  { now := "T", cache := none, fetch := .success 9999 [5],
    localFiles := [⟨"a.kmz", [7]⟩] }

/-- Witness for C6 at a 9,999-byte body: rejected, error recorded,
resolution proceeds to the local scan. -/
theorem C6_small_body_rejected_witness :
    fetch_remote_kmz c6env.fetch c6env.now DSI.start =
      (none, { DSI.start with error := some ("Remote KMZ processing error: Remote file too small (" ++ toString 9999 ++ " bytes)") }) ∧
    load_geojson_data c6env DSI.start =
      localScan c6env
        { DSI.start with error := some ("Remote KMZ processing error: Remote file too small (" ++ toString 9999 ++ " bytes)") }
        c6env.localFiles :=
  C6_small_body_rejected c6env DSI.start 9999 [5] rfl (by decide)
    (Or.inl rfl)

/-- First-load environment: remote succeeds with one feature at time
`T1`, for the C7 counterexample. -/
def c7env1 : Env Nat :=
  { now := "T1", cache := none, fetch := .success 20000 [3],
    localFiles := [] }

/-- Provenance after the successful remote load, for the C7
counterexample. -/
def c7dsi1 : DSI :=
  { source := "remote", loaded_at := some "T1", parcel_count := 1,
    error := none }

/-- Refresh-time environment: the cache file survived the deletion
attempt (deletion errors are ignored), the remote fetch times out and
the data directory is empty, for the C7 counterexample. -/
def c7env2 : Env Nat :=
  { now := "T2", cache := some (some ⟨[3]⟩), fetch := .timeout,
    localFiles := [] }

/-- C7 counterexample: after a successful remote load at `T1` and a
refresh whose cache deletion failed, the step-4 cache fallback sets
source `cached` and the cached count but leaves `loaded_at` at the
stale `T1` timestamp — it is not unset. -/
theorem C7_loaded_at_counterexample :
    load_geojson_data c7env1 DSI.start = .ok (⟨[3]⟩, c7dsi1) ∧
    refresh_data c7env2 c7dsi1 =
      .ok (⟨[3]⟩, { source := "cached", loaded_at := some "T1",
                    parcel_count := 1,
                    error := some "Remote KMZ fetch timed out" }) ∧
    ({ source := "cached", loaded_at := some "T1", parcel_count := 1,
       error := some "Remote KMZ fetch timed out" } : DSI).loaded_at ≠
      none := by
  refine ⟨by rfl, by rfl, by simp⟩

/-- C7 amended: the step-4 cache fallback sets provenance source
`cached` and `parcel_count` to the cached collection's feature count,
but `loaded_at` is carried over unchanged from the state entering the
call (so it is unset only if it was already unset), and `error` keeps
whatever the failed fetch recorded. -/
theorem C7_cached_provenance_amended {α : Type} (env : Env α) (dsi : DSI)
    (fc : Fc α) (hsrc : dsi.source = "unknown")
    (hc : env.cache = some (some fc))
    (hfail : (fetch_remote_kmz env.fetch env.now dsi).1 = none)
    (hall : ∀ f ∈ env.localFiles, pyEndsWith f.name ".kmz" = true →
      f.parsed = []) :
    load_geojson_data env dsi =
      .ok (fc, { source := "cached", loaded_at := dsi.loaded_at,
                 parcel_count := fc.features.length,
                 error := (fetch_remote_kmz env.fetch env.now dsi).2.error }) := by
  rw [load_eq_slow env dsi (Or.inr hsrc)]
  unfold loadSlow
  split
  · rename_i features dsi1 hmatch
    rw [hmatch] at hfail
    exact absurd hfail (by simp)
  · rename_i dsi1 hmatch
    obtain ⟨hs, hload, hcount⟩ := fetch_remote_kmz_fail env.fetch env.now
      dsi (by rw [hmatch])
    rw [hmatch] at hload
    simp only at hload
    rw [localScan_all_fail env dsi1 env.localFiles hall]
    simp only [cacheFallback, hc]
    rw [hmatch]
    cases dsi1 with
    | mk src la pc er =>
      simp only at hload
      rw [hload]

/-- Pre-refresh provenance with a stale timestamp, for the C7 amended
witness. -/
def c7dsiW : DSI :=
  { source := "unknown", loaded_at := some "T1", parcel_count := 5,
    error := none }

/-- Witness for the amended C7: the cached fallback keeps the stale
`T1` timestamp while setting source and count. -/
theorem C7_cached_provenance_amended_witness :
    load_geojson_data c7env2 c7dsiW =
      .ok ((⟨[3]⟩ : Fc Nat),
        { source := "cached", loaded_at := some "T1", parcel_count := 1,
          error :=
            (fetch_remote_kmz c7env2.fetch c7env2.now c7dsiW).2.error }) :=
  C7_cached_provenance_amended c7env2 c7dsiW ⟨[3]⟩ rfl rfl rfl
    (fun f hf _ => absurd hf (List.not_mem_nil f))

/-- C9: while provenance is `cached` and the cache file exists and
parses, resolving is the fast path: it returns the cached collection
and leaves the provenance record — `parcel_count` included — entirely
unchanged, so resolving twice gives identical results. -/
theorem C9_cached_idempotent {α : Type} (env : Env α) (dsi : DSI)
    (fc : Fc α) (hsrc : dsi.source = "cached")
    (hc : env.cache = some (some fc)) :
    load_geojson_data env dsi = .ok (fc, dsi) ∧
    (load_geojson_data env dsi).bind (fun r => load_geojson_data env r.2) =
      .ok (fc, dsi) := by
  have h1 : load_geojson_data env dsi = .ok (fc, dsi) := by
    simp only [load_geojson_data, hc]
    rw [if_pos (by rw [hsrc]; simp)]
  refine ⟨h1, ?_⟩
  rw [h1]
  simpa using h1

/-- Cached-state environment for the C9 witness. -/
def c9env : Env Nat :=
  { now := "T", cache := some (some ⟨[1]⟩), fetch := .timeout,
    localFiles := [] }

/-- Cached provenance for the C9 witness. -/
def c9dsi : DSI :=
  { source := "cached", loaded_at := none, parcel_count := 1,
    error := none }

/-- Witness for C9: the fast path returns the cached collection with
the provenance unchanged. -/
theorem C9_cached_idempotent_witness :
    load_geojson_data c9env c9dsi = .ok (⟨[1]⟩, c9dsi) :=
  (C9_cached_idempotent c9env c9dsi ⟨[1]⟩ rfl rfl).1
